import Mathlib

/-!
Verification of the multiplayer game server (`src/server.ts`) and the client
networking layer (`src/client/src/Game.tsx`) against its specification.

The embedding is shallow: each message handler of the server's
`setupWebSockets` and each relevant client function becomes a pure Lean
function on explicit state.  Conventions used throughout:

* A JavaScript value that may be `undefined` (an absent payload field, or a
  record slot that was never assigned) is modelled as an `Option`; `none`
  covers `undefined`/`null`/absent.
* JavaScript truthiness tests `x || d` are modelled by `jsIntOr` / `jsNatOr` /
  `jsStrOr`: `0`, the empty string, `null` and `undefined` are falsy.
* The server's `players` map (keyed by the WebSocket handle) and the client's
  `playersRef` map (keyed by player id) are association lists `List (Nat × _)`
  with insertion order preserved, mirroring a JS `Map`.
* `wss.clients` is a list of `(handle, readyState = OPEN)` pairs; broadcasts
  return the list of `(recipient, message)` deliveries.
* Numeric game quantities (health, damage, coordinates) are modelled as `Int`.
* Code that throws (`data.data.position.x` on a payload without `position`)
  is modelled with an `Option` result, `none` meaning the exception path.
-/

namespace Game

/-- Coordinate triple, as the `{x, y, z}` objects on the wire. -/
structure Vec3 where
  x : Int
  y : Int
  z : Int
  deriving DecidableEq, Repr

/-- JS `v || d` for numbers: `undefined`/`null`/`0` fall back to `d`. -/
def jsIntOr (v : Option Int) (d : Int) : Int :=
  match v with
  | none => d
  | some x => if x = 0 then d else x

/-- JS `v || d` for non-negative counters: `undefined`/`null`/`0` fall back to `d`. -/
def jsNatOr (v : Option Nat) (d : Nat) : Nat :=
  match v with
  | none => d
  | some x => if x = 0 then d else x

/-- JS `v || d` for strings: `undefined`/`null`/`""` fall back to `d`. -/
def jsStrOr (v : Option String) (d : String) : String :=
  match v with
  | none => d
  | some s => if s = "" then d else s

/-- Whether an association list has an entry with the given key
(JS `Map.prototype.has`). -/
def hasKey {α : Type} (xs : List (Nat × α)) (k : Nat) : Bool :=
  xs.any (fun e => e.1 == k)

/-- In-place mutation of the record stored under key `k`
(JS object mutation through a `Map.prototype.get` reference). -/
def updateAt {α : Type} (xs : List (Nat × α)) (k : Nat) (f : α → α) :
    List (Nat × α) :=
  xs.map (fun e => if e.1 = k then (e.1, f e.2) else e)

/-- Server-side Player Record, as created and mutated by `setupWebSockets`.
Slots that JS code can leave or set `undefined` are `Option`s. -/
structure PlayerRecord where
  id : Nat
  color : Nat
  position : Option Vec3
  rotation : Option Int
  animation : Option String
  health : Int
  maxHealth : Int
  kills : Nat
  deaths : Nat
  name : Option String
  deriving DecidableEq, Repr

/-- The record `players.set(ws, {...})` creates on connection
(`getRandomColor` returns the fixed color `0xcccccc`). -/
def initialPlayer (id : Nat) : PlayerRecord :=
  { id := id
    color := 0xcccccc
    position := some ⟨0, 0, 0⟩
    rotation := some 0
    animation := some "idle"
    health := 100
    maxHealth := 100
    kills := 0
    deaths := 0
    name := some ("Player " ++ toString id) }

/-- Server `players` map: WebSocket handle ↦ Player Record. -/
abbrev Players := List (Nat × PlayerRecord)

/-- `wss.clients`: connection handle paired with `readyState === WS.OPEN`. -/
abbrev Clients := List (Nat × Bool)

/-- Broadcast payloads relayed for a `fireball` message: the object literal
`{playerId, position, direction, color, damage}` built in the handler. -/
structure FireballOut where
  playerId : Nat
  position : Option Vec3
  direction : Option Vec3
  color : Nat
  damage : Option Int
  deriving DecidableEq, Repr

/-- Server-to-client messages sent by the handlers modelled here. -/
inductive OutMsg where
  | playerUpdate (p : PlayerRecord)
  | playerKill (killerId : Nat) (killerKills : Nat) (victimId : Nat)
      (victimDeaths : Nat)
  | fireball (d : FireballOut)
  deriving DecidableEq, Repr

/-- `broadcastToAll wss message`: deliver to every client whose
`readyState === WS.OPEN`; others are skipped. -/
def broadcastToAll (clients : Clients) (m : OutMsg) : List (Nat × OutMsg) :=
  (clients.filter (fun c => c.2)).map (fun c => (c.1, m))

/-- `broadcastToOthers wss sender message`: deliver to every client other
than `sender` whose `readyState === WS.OPEN`; others are skipped. -/
def broadcastToOthers (clients : Clients) (sender : Nat) (m : OutMsg) :
    List (Nat × OutMsg) :=
  (clients.filter (fun c => c.1 != sender && c.2)).map (fun c => (c.1, m))

/-- Payload of a client→server `position` message.  The handler reads only
`position`, `rotation` and `animation`; a `health` or `name` field a client
might put in the payload is representable but ignored by the code. -/
structure PositionPayload where
  position : Option Vec3
  rotation : Option Int
  animation : Option String
  name : Option String
  health : Option Int
  deriving DecidableEq, Repr

/-- The `case "position"` handler: overwrite `position`, `rotation` and
`animation` of the sender's record with the payload slots (unconditional JS
assignment, so an absent slot stores `undefined`), never touching `health`,
then broadcast the mutated record to the other connections. -/
def handlePosition (players : Players) (clients : Clients) (ws : Nat)
    (d : PositionPayload) : Players × List (Nat × OutMsg) :=
  match players.lookup ws with
  | none => (players, [])
  | some p =>
    let p' := { p with
      position := d.position, rotation := d.rotation, animation := d.animation }
    (updateAt players ws (fun q => { q with
        position := d.position, rotation := d.rotation,
        animation := d.animation }),
     broadcastToOthers clients ws (OutMsg.playerUpdate p'))

/-- Payload of a client→server `playerUpdate` message. -/
structure UpdatePayload where
  position : Option Vec3
  rotation : Option Int
  animation : Option String
  health : Option Int
  name : Option String
  deriving DecidableEq, Repr

/-- Field-wise guarded mutation of the `case "playerUpdate"` handler:
`position` on truthiness, `rotation` on `!== undefined`, `animation` on
truthiness (empty string falsy), `health` on `!== undefined`, `name` on
truthiness. -/
def applyPlayerUpdate (p : PlayerRecord) (d : UpdatePayload) : PlayerRecord :=
  let p1 := match d.position with
    | some v => { p with position := some v }
    | none => p
  let p2 := match d.rotation with
    | some r => { p1 with rotation := some r }
    | none => p1
  let p3 := match d.animation with
    | some a => if a = "" then p2 else { p2 with animation := some a }
    | none => p2
  let p4 := match d.health with
    | some h => { p3 with health := h }
    | none => p3
  match d.name with
  | some n => if n = "" then p4 else { p4 with name := some n }
  | none => p4

/-- The `case "playerUpdate"` handler: partial update of the sender's record,
then broadcast of the mutated record to the other connections. -/
def handlePlayerUpdate (players : Players) (clients : Clients) (ws : Nat)
    (d : UpdatePayload) : Players × List (Nat × OutMsg) :=
  match players.lookup ws with
  | none => (players, [])
  | some p =>
    (updateAt players ws (fun q => applyPlayerUpdate q d),
     broadcastToOthers clients ws (OutMsg.playerUpdate (applyPlayerUpdate p d)))

/-- Payload of a `directDamage` / `damagePlayer` message. -/
structure DamagePayload where
  targetId : Nat
  damage : Option Int
  deriving DecidableEq, Repr

/-- The `case "damagePlayer"` / `case "directDamage"` handler.  Requires a
registered sender; finds the first record whose `id` matches `targetId`;
applies `damage = data.data.damage || 10`; clamps the new health with
`Math.max(0, health - damage)`; broadcasts the mutated target record to all;
and, whenever the new health is `<= 0` (no comparison with the previous
health), increments the sender's `kills` and the target's `deaths` and
broadcasts a `playerKill` to all. -/
def handleDamage (players : Players) (clients : Clients) (ws : Nat)
    (d : DamagePayload) : Players × List (Nat × OutMsg) :=
  match players.lookup ws with
  | none => (players, [])
  | some sp =>
    match players.find? (fun e => e.2.id == d.targetId) with
    | none => (players, [])
    | some (tws, tp) =>
      let damage := jsIntOr d.damage 10
      let newHealth := max 0 (tp.health - damage)
      let players1 := updateAt players tws (fun q => { q with health := newHealth })
      let target1 := { tp with health := newHealth }
      let msgs1 := broadcastToAll clients (OutMsg.playerUpdate target1)
      if newHealth ≤ 0 then
        let players2 := updateAt players1 ws (fun q => { q with kills := q.kills + 1 })
        let players3 := updateAt players2 tws (fun q => { q with deaths := q.deaths + 1 })
        (players3,
         msgs1 ++ broadcastToAll clients
           (OutMsg.playerKill sp.id (sp.kills + 1) tp.id (tp.deaths + 1)))
      else (players1, msgs1)

/-- Payload of a client→server `fireball` message (the slots the handler
reads). -/
structure FireballPayload where
  position : Option Vec3
  direction : Option Vec3
  damage : Option Int
  deriving DecidableEq, Repr

/-- The `case "fireball"` handler: persists nothing, relays
`{playerId, position, direction, color, damage}` to the other connections. -/
def handleFireball (players : Players) (clients : Clients) (ws : Nat)
    (d : FireballPayload) : Players × List (Nat × OutMsg) :=
  match players.lookup ws with
  | none => (players, [])
  | some p =>
    (players,
     broadcastToOthers clients ws (OutMsg.fireball
       { playerId := p.id, position := d.position, direction := d.direction,
         color := p.color, damage := d.damage }))

/-- JSON keys present in a serialized `fireball` payload sent by a client
(`JSON.stringify` drops `undefined`-valued properties). -/
def fireballPayloadKeys (d : FireballPayload) : List String :=
  (match d.position with | some _ => ["position"] | none => []) ++
  (match d.direction with | some _ => ["direction"] | none => []) ++
  (match d.damage with | some _ => ["damage"] | none => [])

/-- JSON keys present in the serialized `data` object of a relayed
`fireball` message, in the order of the object literal in the handler. -/
def fireballOutKeys (o : FireballOut) : List String :=
  ["playerId"] ++
  (match o.position with | some _ => ["position"] | none => []) ++
  (match o.direction with | some _ => ["direction"] | none => []) ++
  ["color"] ++
  (match o.damage with | some _ => ["damage"] | none => [])

/-! ### Client-side embedding (`src/client/src/Game.tsx`) -/

/-- Client-side record for one player in `playersRef` (`Player` objects built
by `handleServerMessage` / `updateOtherPlayer`).  `position` is a plain
`Vec3`: every creation site constructs a `THREE.Vector3` from the payload and
throws when the payload has no `position`.  `hasModel` stands for the
presence of the asynchronously loaded `player.model`; `jumpStartTime` is a
`performance.now()` timestamp. -/
structure ClientPlayer where
  id : Nat
  position : Vec3
  rotation : Option Int
  animation : Option String
  health : Int
  maxHealth : Int
  kills : Nat
  deaths : Nat
  name : String
  hasModel : Bool
  jumpStartTime : Option Nat
  deriving DecidableEq, Repr

/-- Client session state: `playerIdRef.current` (`none` = `null`) and the
`playersRef.current` map keyed by player id. -/
structure ClientState where
  localId : Option Nat
  players : List (Nat × ClientPlayer)
  deriving DecidableEq, Repr

/-- Data slots of an inbound `playerUpdate` read by the client
(`data.data`; every slot may be absent). -/
structure ClientUpdateData where
  id : Nat
  position : Option Vec3
  rotation : Option Int
  animation : Option String
  health : Option Int
  maxHealth : Option Int
  kills : Option Nat
  deaths : Option Nat
  name : Option String
  deriving DecidableEq, Repr

/-- The state effects of `createOtherPlayer`, called with a player object
already inserted in `playersRef`: the identity fix-up on
`playerIdRef.current` (adopt `player.id` when the ref is `null`, or when the
ref's id is missing from the map while the map has exactly one entry) and,
when the player is then deemed local and the `playerName` component state is
truthy, the mutation `player.name = playerName`.  The remainder of the
function is asynchronous model/animation loading (presentation, out of the
modelled core). -/
def createOtherPlayer (s : ClientState) (pname : Option String)
    (p : ClientPlayer) : ClientState :=
  let newLocal : Option Nat :=
    match s.localId with
    | none => some p.id
    | some l =>
      if hasKey s.players l = false ∧ s.players.length = 1 then some p.id
      else some l
  let players' :=
    if newLocal = some p.id then
      match pname with
      | some n => if n = "" then s.players
          else updateAt s.players p.id (fun q => { q with name := n })
      | none => s.players
    else s.players
  { localId := newLocal, players := players' }

/-- The guarded animation change at the end of `updateOtherPlayer`,
including the do-not-interrupt-jump window
(`player.jumpStartTime` is truthy and `performance.now() - jumpStartTime <
1000`; a timestamp of `0` is falsy). -/
def applyAnimationUpdate (p : ClientPlayer) (now : Nat)
    (a : Option String) : ClientPlayer :=
  match a with
  | none => p
  | some an =>
    if an = "" then p
    else if some an = p.animation then p
    else if (p.animation == some "jump" &&
        (match p.jumpStartTime with
         | some t => t != 0 && decide (now - t < 1000)
         | none => false)) = true then p
    else { p with animation := some an }

/-- `updateOtherPlayer(data)`: returns early for the local player; lazily
creates a record for an unknown id (throwing — `none` — when the payload has
no `position`); otherwise merges the present payload slots into the stored
record in source order (position; rotation only when a model exists; health,
with `handlePlayerDefeat` bumping `deaths` on a `>0 → ≤0` transition when a
model exists; kills; deaths; name; animation). -/
def updateOtherPlayer (s : ClientState) (pname : Option String) (now : Nat)
    (d : ClientUpdateData) : Option ClientState :=
  if s.localId = some d.id then some s
  else if hasKey s.players d.id = false then
    match d.position with
    | none => none
    | some pos =>
      let np : ClientPlayer :=
        { id := d.id, position := pos, rotation := d.rotation,
          animation := d.animation,
          health := jsIntOr d.health 100,
          maxHealth := jsIntOr d.maxHealth 100,
          kills := jsNatOr d.kills 0, deaths := jsNatOr d.deaths 0,
          name := jsStrOr d.name ("Player " ++ toString d.id),
          hasModel := false, jumpStartTime := none }
      some (createOtherPlayer
        { s with players := s.players ++ [(d.id, np)] } pname np)
  else
    match s.players.lookup d.id with
    | none => some s
    | some p0 =>
      let p1 := match d.position with
        | some v => { p0 with position := v }
        | none => p0
      let p2 := match d.rotation with
        | some r => if p1.hasModel then { p1 with rotation := some r } else p1
        | none => p1
      let oldHealth : Int := p2.health
      let p3 := match d.health with
        | some h => { p2 with health := h }
        | none => p2
      let p4 := match d.health with
        | some h =>
          if h ≤ 0 ∧ 0 < oldHealth ∧ p3.hasModel = true then
            { p3 with deaths := p3.deaths + 1 }
          else p3
        | none => p3
      let p5 := match d.kills with
        | some k => { p4 with kills := k }
        | none => p4
      let p6 := match d.deaths with
        | some dd => { p5 with deaths := dd }
        | none => p5
      let p7 := match d.name with
        | some n => if n = "" then p6 else { p6 with name := n }
        | none => p6
      let p8 := applyAnimationUpdate p7 now d.animation
      some { s with players := updateAt s.players d.id (fun _ => p8) }

/-- The `case "playerUpdate"` branch of the client's `handleServerMessage`:
for an id absent from `playersRef`, build a new `Player` (throwing — `none`
— when the payload has no `position`; `animation` defaults to `"idle"`,
`health`/`maxHealth` to `100`, `kills`/`deaths` to `0`, `name` to
`"Player " + id`), insert it and call `createOtherPlayer`; for a known id,
delegate to `updateOtherPlayer`. -/
def clientHandlePlayerUpdate (s : ClientState) (pname : Option String)
    (now : Nat) (d : ClientUpdateData) : Option ClientState :=
  if hasKey s.players d.id = false then
    match d.position with
    | none => none
    | some pos =>
      let np : ClientPlayer :=
        { id := d.id, position := pos, rotation := d.rotation,
          animation := some (jsStrOr d.animation "idle"),
          health := jsIntOr d.health 100,
          maxHealth := jsIntOr d.maxHealth 100,
          kills := jsNatOr d.kills 0, deaths := jsNatOr d.deaths 0,
          name := jsStrOr d.name ("Player " ++ toString d.id),
          hasModel := false, jumpStartTime := none }
      some (createOtherPlayer
        { s with players := s.players ++ [(d.id, np)] } pname np)
  else
    updateOtherPlayer s pname now d

/-- JSON keys of the `data` object built by the client's
`sendPositionUpdate` (the periodic outbound position emitter). -/
def sendPositionUpdateDataKeys : List String :=
  ["id", "position", "rotation", "animation", "name"]

/-! ### Helper lemmas about association lists and broadcast fan-out -/

lemma lookup_updateAt {α : Type} (xs : List (Nat × α)) (k j : Nat) (f : α → α) :
    (updateAt xs k f).lookup j =
      if j = k then (xs.lookup j).map f else xs.lookup j := by
  induction xs with
  | nil => simp [updateAt]
  | cons e t ih =>
    obtain ⟨a, b⟩ := e
    simp only [updateAt, List.map_cons] at ih ⊢
    by_cases hak : a = k
    · simp only [if_pos hak]
      by_cases hja : j = a
      · have h1 : (j == a) = true := beq_iff_eq.mpr hja
        have h2 : j = k := hja.trans hak
        have h3 : (k == a) = true := beq_iff_eq.mpr hak.symm
        simp [List.lookup, h1, h2, h3]
      · have h1 : (j == a) = false := beq_eq_false_iff_ne.mpr hja
        simp [List.lookup, h1, ih]
    · simp only [if_neg (by simpa using hak)]
      by_cases hja : j = a
      · have h1 : (j == a) = true := beq_iff_eq.mpr hja
        have h2 : ¬ j = k := fun h => hak (hja.symm.trans h)
        simp [List.lookup, h1, h2]
      · have h1 : (j == a) = false := beq_eq_false_iff_ne.mpr hja
        simp [List.lookup, h1, ih]

lemma lookup_isSome_of_mem {α : Type} {xs : List (Nat × α)} {k : Nat} {v : α}
    (h : (k, v) ∈ xs) : ∃ w, xs.lookup k = some w := by
  induction xs with
  | nil => simp at h
  | cons e t ih =>
    obtain ⟨a, b⟩ := e
    by_cases hka : k = a
    · exact ⟨b, by simp [List.lookup, beq_iff_eq.mpr hka]⟩
    · have h1 : (k == a) = false := beq_eq_false_iff_ne.mpr hka
      rcases List.mem_cons.mp h with h2 | h2
      · exact absurd (congrArg Prod.fst h2) hka
      · obtain ⟨w, hw⟩ := ih h2
        exact ⟨w, by simp [List.lookup, h1, hw]⟩

lemma lookup_append_new {α : Type} {xs : List (Nat × α)} {k : Nat} (v : α)
    (h : hasKey xs k = false) : (xs ++ [(k, v)]).lookup k = some v := by
  induction xs with
  | nil => simp [List.lookup]
  | cons e t ih =>
    obtain ⟨a, b⟩ := e
    simp only [hasKey, List.any_cons, Bool.or_eq_false_iff] at h
    have h1 : (k == a) = false := by
      cases hx : (a == k) <;> simp_all [BEq.comm]
    simp only [List.cons_append, List.lookup, h1]
    exact ih (by simp [hasKey, h.2])

lemma hasKey_append_left {α : Type} {xs : List (Nat × α)} {k : Nat}
    (ys : List (Nat × α)) (h : hasKey xs k = true) :
    hasKey (xs ++ ys) k = true := by
  simp only [hasKey, List.any_append, Bool.or_eq_true]
  exact Or.inl (by simpa [hasKey] using h)

lemma mem_broadcastToOthers {clients : Clients} {s r : Nat} {m m' : OutMsg} :
    (r, m') ∈ broadcastToOthers clients s m ↔
      m' = m ∧ (r, true) ∈ clients ∧ r ≠ s := by
  simp only [broadcastToOthers, List.mem_map, List.mem_filter]
  constructor
  · rintro ⟨⟨c1, c2⟩, ⟨hmem, hcond⟩, heq⟩
    obtain ⟨h1, h2⟩ := Prod.mk.injEq .. ▸ heq
    subst h1; subst h2
    simp only [Bool.and_eq_true, bne_iff_ne, ne_eq] at hcond
    obtain ⟨hne, hb⟩ := hcond
    subst hb
    exact ⟨rfl, hmem, hne⟩
  · rintro ⟨rfl, hmem, hne⟩
    exact ⟨(r, true), ⟨hmem, by simp [hne]⟩, rfl⟩

lemma mem_broadcastToAll {clients : Clients} {r : Nat} {m m' : OutMsg} :
    (r, m') ∈ broadcastToAll clients m ↔ m' = m ∧ (r, true) ∈ clients := by
  simp only [broadcastToAll, List.mem_map, List.mem_filter]
  constructor
  · rintro ⟨⟨c1, c2⟩, ⟨hmem, hcond⟩, heq⟩
    obtain ⟨h1, h2⟩ := Prod.mk.injEq .. ▸ heq
    subst h1; subst h2
    simp only at hcond
    subst hcond
    exact ⟨rfl, hmem⟩
  · rintro ⟨rfl, hmem⟩
    exact ⟨(r, true), ⟨hmem, rfl⟩, rfl⟩

lemma broadcastToOthers_skip_closed (xs ys : Clients) (c s : Nat) (m : OutMsg) :
    broadcastToOthers (xs ++ (c, false) :: ys) s m =
      broadcastToOthers (xs ++ ys) s m := by
  simp [broadcastToOthers, List.filter_append]

lemma broadcastToAll_skip_closed (xs ys : Clients) (c : Nat) (m : OutMsg) :
    broadcastToAll (xs ++ (c, false) :: ys) m = broadcastToAll (xs ++ ys) m := by
  simp [broadcastToAll, List.filter_append]

/-! ### Claim theorems -/

lemma handleDamage_lookup_target (players : Players) (clients : Clients)
    (ws : Nat) (d : DamagePayload) (sp : PlayerRecord) (tws : Nat)
    (tp : PlayerRecord)
    (hs : players.lookup ws = some sp)
    (ht : players.find? (fun e => e.2.id == d.targetId) = some (tws, tp)) :
    ∃ t', (handleDamage players clients ws d).1.lookup tws = some t' ∧
      t'.health = max 0 (tp.health - jsIntOr d.damage 10) := by
  have hmem : (tws, tp) ∈ players := List.mem_of_find?_eq_some ht
  obtain ⟨w, hw⟩ := lookup_isSome_of_mem hmem
  unfold handleDamage
  rw [hs, ht]
  simp only
  by_cases hcond : max 0 (tp.health - jsIntOr d.damage 10) ≤ 0
  · rw [if_pos hcond]
    simp only
    rw [lookup_updateAt, if_pos rfl, lookup_updateAt]
    by_cases htw : tws = ws
    · rw [if_pos htw, lookup_updateAt, if_pos rfl, hw]
      exact ⟨_, rfl, rfl⟩
    · rw [if_neg htw, lookup_updateAt, if_pos rfl, hw]
      exact ⟨_, rfl, rfl⟩
  · rw [if_neg hcond]
    simp only
    rw [lookup_updateAt, if_pos rfl, hw]
    exact ⟨_, rfl, rfl⟩


/-- C1: two consecutive `directDamage` events with damage 100 against a
target that starts at health 100: the first defeat legitimately increments
the counters, but the second event — applied to a target whose health is
already 0 — increments `kills` and `deaths` again and broadcasts a second
`playerKill`, because the handler checks only `health <= 0`, not a
`>0 → ≤0` transition. -/
theorem damage_to_dead_target_refires_defeat :
    ((Game.handleDamage [(1, initialPlayer 1), (2, initialPlayer 2)]
        [(1, true), (2, true)] 1 ⟨2, some 100⟩).1.lookup 2).map
      PlayerRecord.deaths = some 1 ∧
    ((Game.handleDamage [(1, initialPlayer 1), (2, initialPlayer 2)]
        [(1, true), (2, true)] 1 ⟨2, some 100⟩).1.lookup 2).map
      PlayerRecord.health = some 0 ∧
    ((Game.handleDamage (Game.handleDamage [(1, initialPlayer 1),
        (2, initialPlayer 2)] [(1, true), (2, true)] 1 ⟨2, some 100⟩).1
        [(1, true), (2, true)] 1 ⟨2, some 100⟩).1.lookup 2).map
      PlayerRecord.deaths = some 2 ∧
    ((Game.handleDamage (Game.handleDamage [(1, initialPlayer 1),
        (2, initialPlayer 2)] [(1, true), (2, true)] 1 ⟨2, some 100⟩).1
        [(1, true), (2, true)] 1 ⟨2, some 100⟩).1.lookup 1).map
      PlayerRecord.kills = some 2 ∧
    (2, OutMsg.playerKill 1 2 2 2) ∈
      (Game.handleDamage (Game.handleDamage [(1, initialPlayer 1),
        (2, initialPlayer 2)] [(1, true), (2, true)] 1 ⟨2, some 100⟩).1
        [(1, true), (2, true)] 1 ⟨2, some 100⟩).2 := by
  decide

/-- C3 counterexample: a `directDamage` whose payload carries `damage: -5`
(truthy, so not replaced by the default) raises the target's health from 100
to 105, above `maxHealth = 100` — the damage applied is negative and the
resulting health is not clamped to `[0, maxHealth]`. -/
theorem damage_negative_payload_exceeds_maxHealth :
    jsIntOr (some (-5)) 10 = -5 ∧
    ((Game.handleDamage [(1, initialPlayer 1), (2, initialPlayer 2)]
        [(1, true), (2, true)] 1 ⟨2, some (-5)⟩).1.lookup 2).map
      PlayerRecord.health = some 105 ∧
    (initialPlayer 2).maxHealth = 100 := by
  decide

/-- C3 (amended): for every damage event on a resolvable target, the target's
stored health becomes exactly `max 0 (health - damage)` with
`damage = payload.damage || 10` (possibly negative): the result is never
negative, and damage exceeding the current health yields exactly 0; when the
applied damage is non-negative the result does not exceed
`max 0` of the prior health — but nothing caps it at `maxHealth`. -/
theorem damage_result_health_clamped_below (players : Players)
    (clients : Clients) (ws : Nat) (d : DamagePayload) (sp : PlayerRecord)
    (tws : Nat) (tp : PlayerRecord)
    (hs : players.lookup ws = some sp)
    (ht : players.find? (fun e => e.2.id == d.targetId) = some (tws, tp)) :
    ∃ t', (handleDamage players clients ws d).1.lookup tws = some t' ∧
      t'.health = max 0 (tp.health - jsIntOr d.damage 10) ∧
      0 ≤ t'.health ∧
      (tp.health < jsIntOr d.damage 10 → t'.health = 0) ∧
      (0 ≤ jsIntOr d.damage 10 → t'.health ≤ max 0 tp.health) := by
  obtain ⟨t', h1, h2⟩ :=
    handleDamage_lookup_target players clients ws d sp tws tp hs ht
  refine ⟨t', h1, h2, ?_, ?_, ?_⟩
  · rw [h2]; exact le_max_left 0 _
  · intro hlt
    rw [h2, max_eq_left (by omega)]
  · intro hnn
    rw [h2]
    rcases max_cases 0 (tp.health - jsIntOr d.damage 10) with ⟨he, _⟩ | ⟨he, _⟩ <;>
      rw [he]
    · exact le_max_left 0 _
    · rcases max_cases 0 tp.health with ⟨hf, hf2⟩ | ⟨hf, hf2⟩ <;> rw [hf] <;> omega

/-- Witness for C3's amended theorem: sender 1 damages target 2 (health 100)
with damage 150; the stored health is exactly 0. -/
theorem damage_result_health_clamped_below_witness :
    ∃ t', (handleDamage [(1, initialPlayer 1), (2, initialPlayer 2)]
        [(1, true), (2, true)] 1 ⟨2, some 150⟩).1.lookup 2 = some t' ∧
      t'.health = max 0 ((initialPlayer 2).health - jsIntOr (some 150) 10) ∧
      0 ≤ t'.health ∧
      ((initialPlayer 2).health < jsIntOr (some 150) 10 → t'.health = 0) ∧
      (0 ≤ jsIntOr (some 150) 10 →
        t'.health ≤ max 0 (initialPlayer 2).health) :=
  damage_result_health_clamped_below _ _ 1 _ (initialPlayer 1) 2
    (initialPlayer 2) rfl rfl

/-- C10: a `directDamage` payload with `damage: 0` is falsy in
`data.data.damage || 10` and is handled identically to an absent damage
field: the default 10 applies and the target's health drops by 10 (clamped
at 0) instead of staying unchanged. -/
theorem damage_zero_payload_defaults_to_ten :
    ∀ (players : Players) (clients : Clients) (ws tid : Nat),
    handleDamage players clients ws ⟨tid, some 0⟩ =
      handleDamage players clients ws ⟨tid, none⟩ ∧
    ∀ (sp : PlayerRecord) (tws : Nat) (tp : PlayerRecord),
      players.lookup ws = some sp →
      players.find? (fun e => e.2.id == tid) = some (tws, tp) →
      ∃ t', (handleDamage players clients ws ⟨tid, some 0⟩).1.lookup tws =
          some t' ∧ t'.health = max 0 (tp.health - 10) := by
  intro players clients ws tid
  constructor
  · unfold handleDamage
    norm_num [jsIntOr]
  · intro sp tws tp hs ht
    have h := handleDamage_lookup_target players clients ws ⟨tid, some 0⟩
      sp tws tp hs ht
    simpa [jsIntOr] using h

/-- Witness for C10: with both players at initial health 100, a
`directDamage` with `damage: 0` leaves target 2 at health 90. -/
theorem damage_zero_payload_defaults_to_ten_witness :
    (handleDamage [(1, initialPlayer 1), (2, initialPlayer 2)]
        [(1, true), (2, true)] 1 ⟨2, some 0⟩ =
      handleDamage [(1, initialPlayer 1), (2, initialPlayer 2)]
        [(1, true), (2, true)] 1 ⟨2, none⟩) ∧
    ∃ t', (handleDamage [(1, initialPlayer 1), (2, initialPlayer 2)]
        [(1, true), (2, true)] 1 ⟨2, some 0⟩).1.lookup 2 = some t' ∧
      t'.health = max 0 ((initialPlayer 2).health - 10) := by
  obtain ⟨h1, h2⟩ := damage_zero_payload_defaults_to_ten
    [(1, initialPlayer 1), (2, initialPlayer 2)] [(1, true), (2, true)] 1 2
  exact ⟨h1, h2 (initialPlayer 1) 2 (initialPlayer 2) rfl rfl⟩


/-- C2: handling a `position` message from a registered connection never
changes the sender's stored `health`, `maxHealth`, `kills`, `deaths` (nor
`name`, `id`, `color`); it overwrites only `position`, `rotation` and
`animation`; no other connection's record changes; and the client's
periodic `sendPositionUpdate` message carries no `health` key. -/
theorem position_message_health_isolation (players : Players)
    (clients : Clients) (ws : Nat) (d : PositionPayload) (p : PlayerRecord)
    (h : players.lookup ws = some p) :
    (∃ p', (handlePosition players clients ws d).1.lookup ws = some p' ∧
      p'.health = p.health ∧ p'.maxHealth = p.maxHealth ∧
      p'.kills = p.kills ∧ p'.deaths = p.deaths ∧ p'.name = p.name ∧
      p'.id = p.id ∧ p'.color = p.color ∧
      p'.position = d.position ∧ p'.rotation = d.rotation ∧
      p'.animation = d.animation) ∧
    (∀ k, k ≠ ws → (handlePosition players clients ws d).1.lookup k =
      players.lookup k) ∧
    "health" ∉ sendPositionUpdateDataKeys := by
  refine ⟨?_, ?_, by decide⟩
  · unfold handlePosition
    rw [h]
    simp only
    rw [lookup_updateAt, if_pos rfl, h]
    exact ⟨_, rfl, by simp⟩
  · intro k hk
    unfold handlePosition
    rw [h]
    simp only
    rw [lookup_updateAt, if_neg hk]

/-- Witness for C2: a `position` payload that even carries `health: 55`
leaves the stored health of player 1 at 100. -/
theorem position_message_health_isolation_witness :
    (∃ p', (handlePosition [(1, initialPlayer 1)] [] 1
        ⟨some ⟨3, 4, 5⟩, some 7, some "run", some "Bob", some 55⟩).1.lookup 1 =
        some p' ∧
      p'.health = (initialPlayer 1).health ∧
      p'.maxHealth = (initialPlayer 1).maxHealth ∧
      p'.kills = (initialPlayer 1).kills ∧
      p'.deaths = (initialPlayer 1).deaths ∧
      p'.name = (initialPlayer 1).name ∧
      p'.id = (initialPlayer 1).id ∧ p'.color = (initialPlayer 1).color ∧
      p'.position = some ⟨3, 4, 5⟩ ∧ p'.rotation = some 7 ∧
      p'.animation = some "run") ∧
    (∀ k, k ≠ 1 → (handlePosition [(1, initialPlayer 1)] [] 1
        ⟨some ⟨3, 4, 5⟩, some 7, some "run", some "Bob", some 55⟩).1.lookup k =
      List.lookup k [(1, initialPlayer 1)]) ∧
    "health" ∉ sendPositionUpdateDataKeys :=
  position_message_health_isolation [(1, initialPlayer 1)] [] 1
    ⟨some ⟨3, 4, 5⟩, some 7, some "run", some "Bob", some 55⟩
    (initialPlayer 1) rfl

lemma applyPlayerUpdate_frame (p : PlayerRecord) (d : UpdatePayload) :
    (d.position = none → (applyPlayerUpdate p d).position = p.position) ∧
    (d.rotation = none → (applyPlayerUpdate p d).rotation = p.rotation) ∧
    (d.animation = none → (applyPlayerUpdate p d).animation = p.animation) ∧
    (d.health = none → (applyPlayerUpdate p d).health = p.health) ∧
    (d.name = none → (applyPlayerUpdate p d).name = p.name) := by
  rcases d with ⟨dp, dr, da, dh, dn⟩
  cases dp <;> cases dr <;> cases da <;> cases dh <;> cases dn <;>
    simp only [applyPlayerUpdate] <;> (try split_ifs) <;> simp

/-- C4: a `playerUpdate` from a registered sender merges only the payload
fields that are present: with the payload `{animation:"jump"}` the stored
animation becomes `"jump"` while `position`, `health`, `name` (and
`rotation`) keep their prior values; in general every absent field is left
untouched. -/
theorem playerUpdate_absent_fields_untouched (players : Players)
    (clients : Clients) (ws : Nat) (p : PlayerRecord) (d : UpdatePayload)
    (h : players.lookup ws = some p) :
    ∃ p', (handlePlayerUpdate players clients ws d).1.lookup ws = some p' ∧
      (d = ⟨none, none, some "jump", none, none⟩ →
        p'.animation = some "jump" ∧ p'.position = p.position ∧
        p'.health = p.health ∧ p'.name = p.name ∧
        p'.rotation = p.rotation) ∧
      (d.position = none → p'.position = p.position) ∧
      (d.rotation = none → p'.rotation = p.rotation) ∧
      (d.animation = none → p'.animation = p.animation) ∧
      (d.health = none → p'.health = p.health) ∧
      (d.name = none → p'.name = p.name) := by
  unfold handlePlayerUpdate
  rw [h]
  simp only
  rw [lookup_updateAt, if_pos rfl, h]
  refine ⟨applyPlayerUpdate p d, rfl, ?_, (applyPlayerUpdate_frame p d).1,
    (applyPlayerUpdate_frame p d).2.1, (applyPlayerUpdate_frame p d).2.2.1,
    (applyPlayerUpdate_frame p d).2.2.2.1, (applyPlayerUpdate_frame p d).2.2.2.2⟩
  rintro rfl
  simp [applyPlayerUpdate]

/-- Witness for C4: `{animation:"jump"}` applied to player 1's initial
record sets animation to `"jump"` and keeps everything else. -/
theorem playerUpdate_absent_fields_untouched_witness :
    ∃ p', (handlePlayerUpdate [(1, initialPlayer 1)] [] 1
        ⟨none, none, some "jump", none, none⟩).1.lookup 1 = some p' ∧
      ((⟨none, none, some "jump", none, none⟩ : UpdatePayload) =
          ⟨none, none, some "jump", none, none⟩ →
        p'.animation = some "jump" ∧
        p'.position = (initialPlayer 1).position ∧
        p'.health = (initialPlayer 1).health ∧
        p'.name = (initialPlayer 1).name ∧
        p'.rotation = (initialPlayer 1).rotation) ∧
      ((none : Option Vec3) = none → p'.position = (initialPlayer 1).position) ∧
      ((none : Option Int) = none → p'.rotation = (initialPlayer 1).rotation) ∧
      ((some "jump" : Option String) = none →
        p'.animation = (initialPlayer 1).animation) ∧
      ((none : Option Int) = none → p'.health = (initialPlayer 1).health) ∧
      ((none : Option String) = none → p'.name = (initialPlayer 1).name) :=
  playerUpdate_absent_fields_untouched [(1, initialPlayer 1)] [] 1
    (initialPlayer 1) ⟨none, none, some "jump", none, none⟩ rfl


/-- C5 counterexample: a `playerUpdate` for unknown id 7 whose payload has
no `position` field makes the lazy-creation code evaluate
`data.data.position.x` on `undefined`: the thrown TypeError drops the update
and no Tracked record is created. -/
theorem lazy_creation_missing_position_drops_update :
    clientHandlePlayerUpdate ⟨some 99, []⟩ none 0
      ⟨7, none, none, none, some 50, none, none, none, none⟩ = none := by
  rfl

/-- C5 (amended): a `playerUpdate` for an untracked id whose payload does
include `position` creates a Tracked record (the update is not dropped),
seeding present fields and defaulting absent ones: `health = maxHealth =
100`, `animation = "idle"`, `name = "Player <id>"`.  The hypotheses keep the
new id distinct from a properly tracked local id, as the claim assumes. -/
theorem lazy_remote_creation_with_position (s : ClientState)
    (pname : Option String) (now : Nat) (d : ClientUpdateData) (pos : Vec3)
    (l : Nat)
    (hid : hasKey s.players d.id = false)
    (hpos : d.position = some pos)
    (hl : s.localId = some l)
    (hlt : hasKey s.players l = true) :
    ∃ np : ClientPlayer,
      clientHandlePlayerUpdate s pname now d =
        some ⟨some l, s.players ++ [(d.id, np)]⟩ ∧
      (s.players ++ [(d.id, np)]).lookup d.id = some np ∧
      np.id = d.id ∧ np.position = pos ∧
      np.health = jsIntOr d.health 100 ∧
      np.maxHealth = jsIntOr d.maxHealth 100 ∧
      np.name = jsStrOr d.name ("Player " ++ toString d.id) ∧
      np.animation = some (jsStrOr d.animation "idle") ∧
      (d.health = none → np.health = 100) ∧
      (d.maxHealth = none → np.maxHealth = 100) ∧
      (d.animation = none → np.animation = some "idle") ∧
      (d.name = none → np.name = "Player " ++ toString d.id) := by
  have hne : l ≠ d.id := by
    intro he
    rw [he, hid] at hlt
    exact Bool.false_ne_true hlt
  refine ⟨⟨d.id, pos, d.rotation, some (jsStrOr d.animation "idle"),
    jsIntOr d.health 100, jsIntOr d.maxHealth 100, jsNatOr d.kills 0,
    jsNatOr d.deaths 0, jsStrOr d.name ("Player " ++ toString d.id),
    false, none⟩, ?_, lookup_append_new _ hid, rfl, rfl, rfl, rfl, rfl, rfl,
    ?_, ?_, ?_, ?_⟩
  · unfold clientHandlePlayerUpdate
    rw [hid, hpos]
    simp only [if_pos rfl]
    unfold createOtherPlayer
    simp only [hl]
    have hK : hasKey (s.players ++
        [(d.id, (⟨d.id, pos, d.rotation, some (jsStrOr d.animation "idle"),
          jsIntOr d.health 100, jsIntOr d.maxHealth 100, jsNatOr d.kills 0,
          jsNatOr d.deaths 0, jsStrOr d.name ("Player " ++ toString d.id),
          false, none⟩ : ClientPlayer))]) l = true :=
      hasKey_append_left _ hlt
    rw [hK]
    simp [hne]
  · intro h; rw [h]; rfl
  · intro h; rw [h]; rfl
  · intro h; rw [h]; rfl
  · intro h; rw [h]; rfl

/-- Witness for C5's amended theorem: with player 1 tracked and local, a
`playerUpdate` for unknown id 2 carrying only a position creates the
defaulted record. -/
theorem lazy_remote_creation_with_position_witness :
    ∃ np : ClientPlayer,
      clientHandlePlayerUpdate
        ⟨some 1, [(1, ⟨1, ⟨0, 0, 0⟩, none, some "idle", 100, 100, 0, 0,
          "Player 1", false, none⟩)]⟩ none 0
        ⟨2, some ⟨3, 4, 5⟩, none, none, none, none, none, none, none⟩ =
        some ⟨some 1, [(1, ⟨1, ⟨0, 0, 0⟩, none, some "idle", 100, 100, 0, 0,
          "Player 1", false, none⟩)] ++ [(2, np)]⟩ ∧
      ([(1, (⟨1, ⟨0, 0, 0⟩, none, some "idle", 100, 100, 0, 0,
          "Player 1", false, none⟩ : ClientPlayer))] ++
        [(2, np)]).lookup 2 = some np ∧
      np.id = 2 ∧ np.position = ⟨3, 4, 5⟩ ∧
      np.health = jsIntOr none 100 ∧
      np.maxHealth = jsIntOr none 100 ∧
      np.name = jsStrOr none ("Player " ++ toString 2) ∧
      np.animation = some (jsStrOr none "idle") ∧
      ((none : Option Int) = none → np.health = 100) ∧
      ((none : Option Int) = none → np.maxHealth = 100) ∧
      ((none : Option String) = none → np.animation = some "idle") ∧
      ((none : Option String) = none →
        np.name = "Player " ++ toString 2) :=
  lazy_remote_creation_with_position
    ⟨some 1, [(1, ⟨1, ⟨0, 0, 0⟩, none, some "idle", 100, 100, 0, 0,
      "Player 1", false, none⟩)]⟩ none 0
    ⟨2, some ⟨3, 4, 5⟩, none, none, none, none, none, none, none⟩
    ⟨3, 4, 5⟩ 1 rfl rfl rfl rfl

/-- C6 counterexample: with `localId = 1` and no Tracked record for id 1, an
inbound `playerUpdate` whose id equals the local id is not discarded: the
lazy-creation branch of `handleServerMessage` runs before any self-check and
creates a Remote Player Record for the local id. -/
theorem self_update_untracked_creates_record :
    (clientHandlePlayerUpdate ⟨some 1, []⟩ none 0
        ⟨1, some ⟨0, 0, 0⟩, none, none, none, none, none, none, none⟩).map
      (fun s' => (hasKey s'.players 1, s'.players.length)) =
      some (true, 1) := by
  rfl

/-- C6 (amended): an inbound update whose id equals `localId` is discarded
with no mutation by `updateOtherPlayer` (the reconciler proper), and hence
by the whole `playerUpdate` handler whenever the id is already Tracked; but
an untracked local id instead reaches the lazy-creation path. -/
theorem self_filter_discards_update (s : ClientState)
    (pname : Option String) (now : Nat) (d : ClientUpdateData)
    (h : s.localId = some d.id) :
    updateOtherPlayer s pname now d = some s ∧
    (hasKey s.players d.id = true →
      clientHandlePlayerUpdate s pname now d = some s) := by
  have h1 : updateOtherPlayer s pname now d = some s := by
    unfold updateOtherPlayer
    rw [h]
    simp
  refine ⟨h1, fun hk => ?_⟩
  unfold clientHandlePlayerUpdate
  rw [hk]
  simpa using h1

/-- Witness for C6's amended theorem: an update for tracked local player 1
leaves the session state untouched. -/
theorem self_filter_discards_update_witness :
    updateOtherPlayer ⟨some 1, [(1, ⟨1, ⟨0, 0, 0⟩, none, some "idle", 100,
        100, 0, 0, "Player 1", false, none⟩)]⟩ none 0
      ⟨1, none, none, none, some 0, none, none, none, none⟩ =
      some ⟨some 1, [(1, ⟨1, ⟨0, 0, 0⟩, none, some "idle", 100, 100, 0, 0,
        "Player 1", false, none⟩)]⟩ ∧
    (hasKey [(1, (⟨1, ⟨0, 0, 0⟩, none, some "idle", 100, 100, 0, 0,
        "Player 1", false, none⟩ : ClientPlayer))] 1 = true →
      clientHandlePlayerUpdate ⟨some 1, [(1, ⟨1, ⟨0, 0, 0⟩, none,
          some "idle", 100, 100, 0, 0, "Player 1", false, none⟩)]⟩ none 0
        ⟨1, none, none, none, some 0, none, none, none, none⟩ =
        some ⟨some 1, [(1, ⟨1, ⟨0, 0, 0⟩, none, some "idle", 100, 100, 0, 0,
          "Player 1", false, none⟩)]⟩) :=
  self_filter_discards_update _ none 0
    ⟨1, none, none, none, some 0, none, none, none, none⟩ rfl


/-- C7 counterexample: client X (id 1) sends a fireball with
`position={0,1,0}`, `direction={0,0,1}`; the message client Y (id 2)
receives carries, besides the injected `playerId`, a `color` field that was
not in X's payload — the relay is not a field-for-field match with exactly
one added field. -/
theorem fireball_relay_not_payload_plus_playerId_only :
    (handleFireball [(1, initialPlayer 1), (2, initialPlayer 2)]
        [(1, true), (2, true)] 1 ⟨some ⟨0, 1, 0⟩, some ⟨0, 0, 1⟩, none⟩).2 =
      [(2, OutMsg.fireball ⟨1, some ⟨0, 1, 0⟩, some ⟨0, 0, 1⟩,
        0xcccccc, none⟩)] ∧
    "color" ∈ fireballOutKeys ⟨1, some ⟨0, 1, 0⟩, some ⟨0, 0, 1⟩,
      0xcccccc, none⟩ ∧
    "color" ∉ "playerId" ::
      fireballPayloadKeys ⟨some ⟨0, 1, 0⟩, some ⟨0, 0, 1⟩, none⟩ := by
  decide

/-- C7 (amended): the fireball relay reaches every other open connection,
persists no server state, and its `data` echoes the payload's `position`,
`direction` and `damage` while injecting two fields: `playerId` (the
sender's id) and `color` (the sender's stored color). -/
theorem fireball_relay_spec (players : Players) (clients : Clients)
    (ws : Nat) (d : FireballPayload) (p : PlayerRecord)
    (h : players.lookup ws = some p) :
    (handleFireball players clients ws d).1 = players ∧
    (handleFireball players clients ws d).2 =
      broadcastToOthers clients ws
        (OutMsg.fireball ⟨p.id, d.position, d.direction, p.color,
          d.damage⟩) ∧
    (∀ r, (r, true) ∈ clients → r ≠ ws →
      (r, OutMsg.fireball ⟨p.id, d.position, d.direction, p.color,
        d.damage⟩) ∈ (handleFireball players clients ws d).2) := by
  unfold handleFireball
  rw [h]
  exact ⟨rfl, rfl, fun r hr hne => mem_broadcastToOthers.mpr ⟨rfl, hr, hne⟩⟩

/-- Witness for C7's amended theorem: sender 1, receiver 2, the concrete
payload of the scenario. -/
theorem fireball_relay_spec_witness :
    (handleFireball [(1, initialPlayer 1), (2, initialPlayer 2)]
        [(1, true), (2, true)] 1
        ⟨some ⟨0, 1, 0⟩, some ⟨0, 0, 1⟩, none⟩).1 =
      [(1, initialPlayer 1), (2, initialPlayer 2)] ∧
    (handleFireball [(1, initialPlayer 1), (2, initialPlayer 2)]
        [(1, true), (2, true)] 1
        ⟨some ⟨0, 1, 0⟩, some ⟨0, 0, 1⟩, none⟩).2 =
      broadcastToOthers [(1, true), (2, true)] 1
        (OutMsg.fireball ⟨(initialPlayer 1).id, some ⟨0, 1, 0⟩,
          some ⟨0, 0, 1⟩, (initialPlayer 1).color, none⟩) ∧
    (∀ r, (r, true) ∈ ([(1, true), (2, true)] : Clients) → r ≠ 1 →
      (r, OutMsg.fireball ⟨(initialPlayer 1).id, some ⟨0, 1, 0⟩,
        some ⟨0, 0, 1⟩, (initialPlayer 1).color, none⟩) ∈
        (handleFireball [(1, initialPlayer 1), (2, initialPlayer 2)]
          [(1, true), (2, true)] 1
          ⟨some ⟨0, 1, 0⟩, some ⟨0, 0, 1⟩, none⟩).2) :=
  fireball_relay_spec [(1, initialPlayer 1), (2, initialPlayer 2)]
    [(1, true), (2, true)] 1 ⟨some ⟨0, 1, 0⟩, some ⟨0, 0, 1⟩, none⟩
    (initialPlayer 1) rfl

/-- C8: `broadcastToOthers` delivers exactly to the open connections other
than the sender (never the sender), `broadcastToAll` delivers exactly to
the open connections including the origin, and a non-open connection is
skipped without affecting the deliveries to the rest. -/
theorem broadcast_fanout_exclusion :
    ∀ (clients : Clients) (sender r : Nat) (m m' : OutMsg)
      (xs ys : Clients) (c : Nat),
    ((r, m') ∈ broadcastToOthers clients sender m ↔
      m' = m ∧ (r, true) ∈ clients ∧ r ≠ sender) ∧
    ((r, m') ∈ broadcastToAll clients m ↔ m' = m ∧ (r, true) ∈ clients) ∧
    (sender, m') ∉ broadcastToOthers clients sender m ∧
    broadcastToOthers (xs ++ (c, false) :: ys) sender m =
      broadcastToOthers (xs ++ ys) sender m ∧
    broadcastToAll (xs ++ (c, false) :: ys) m =
      broadcastToAll (xs ++ ys) m := by
  intro clients sender r m m' xs ys c
  refine ⟨mem_broadcastToOthers, mem_broadcastToAll, ?_,
    broadcastToOthers_skip_closed xs ys c sender m,
    broadcastToAll_skip_closed xs ys c m⟩
  intro hmem
  exact (mem_broadcastToOthers.mp hmem).2.2 rfl

/-- C9: the identity fix-up at the top of `createOtherPlayer`, for a set
`localId = l`: when `l` has no Tracked record and exactly one Tracked
record exists, that sole record's id is adopted; when `l` is tracked or the
record count differs from one, `localId` is left unchanged — no guessing
among multiple candidates. -/
theorem identity_recovery_single_candidate (s : ClientState)
    (pname : Option String) (p : ClientPlayer) (l : Nat)
    (h : s.localId = some l) :
    ((hasKey s.players l = false ∧ s.players.length = 1) →
      (createOtherPlayer s pname p).localId = some p.id ∧
      (hasKey s.players p.id = true → ∀ e ∈ s.players, e.1 = p.id)) ∧
    ((hasKey s.players l = true ∨ s.players.length ≠ 1) →
      (createOtherPlayer s pname p).localId = some l) := by
  constructor
  · rintro ⟨h1, h2⟩
    constructor
    · unfold createOtherPlayer
      rw [h]
      simp [h1, h2]
    · intro hp e he
      rcases hs : s.players with _ | ⟨e0, t⟩
      · rw [hs] at he; simp at he
      · rcases t with _ | ⟨e1, t2⟩
        · rw [hs] at he hp
          simp at he
          subst he
          simpa [hasKey] using hp
        · rw [hs] at h2; simp at h2
  · intro hcase
    unfold createOtherPlayer
    rw [h]
    rcases hcase with hc | hc
    · simp [hc]
    · simp [hc]

/-- Witness for C9: `localId = 99` untracked with the single record for
player 1 — createOtherPlayer adopts id 1. -/
theorem identity_recovery_single_candidate_witness :
    ((hasKey [(1, (⟨1, ⟨0, 0, 0⟩, none, some "idle", 100, 100, 0, 0,
        "Player 1", false, none⟩ : ClientPlayer))] 99 = false ∧
      ([(1, (⟨1, ⟨0, 0, 0⟩, none, some "idle", 100, 100, 0, 0,
        "Player 1", false, none⟩ : ClientPlayer))]).length = 1) →
      (createOtherPlayer ⟨some 99, [(1, ⟨1, ⟨0, 0, 0⟩, none, some "idle",
          100, 100, 0, 0, "Player 1", false, none⟩)]⟩ none
        ⟨1, ⟨0, 0, 0⟩, none, some "idle", 100, 100, 0, 0, "Player 1",
          false, none⟩).localId = some 1 ∧
      (hasKey [(1, (⟨1, ⟨0, 0, 0⟩, none, some "idle", 100, 100, 0, 0,
          "Player 1", false, none⟩ : ClientPlayer))] 1 = true →
        ∀ e ∈ [(1, (⟨1, ⟨0, 0, 0⟩, none, some "idle", 100, 100, 0, 0,
          "Player 1", false, none⟩ : ClientPlayer))], e.1 = 1)) ∧
    ((hasKey [(1, (⟨1, ⟨0, 0, 0⟩, none, some "idle", 100, 100, 0, 0,
        "Player 1", false, none⟩ : ClientPlayer))] 99 = true ∨
      ([(1, (⟨1, ⟨0, 0, 0⟩, none, some "idle", 100, 100, 0, 0,
        "Player 1", false, none⟩ : ClientPlayer))]).length ≠ 1) →
      (createOtherPlayer ⟨some 99, [(1, ⟨1, ⟨0, 0, 0⟩, none, some "idle",
          100, 100, 0, 0, "Player 1", false, none⟩)]⟩ none
        ⟨1, ⟨0, 0, 0⟩, none, some "idle", 100, 100, 0, 0, "Player 1",
          false, none⟩).localId = some 99) :=
  identity_recovery_single_candidate
    ⟨some 99, [(1, ⟨1, ⟨0, 0, 0⟩, none, some "idle", 100, 100, 0, 0,
      "Player 1", false, none⟩)]⟩ none
    ⟨1, ⟨0, 0, 0⟩, none, some "idle", 100, 100, 0, 0, "Player 1",
      false, none⟩ 99 rfl

end Game
